import Mathlib

/-!
Verification of the TripSpark recommendation service against its
natural-language specification.

The development shallowly embeds the three Python variants of the
recommendation engine found in the repository:

* `RecService` — `recommendation_service.py` (`RecommendationService`):
  tag normalisation, the per-candidate scoring formula, and the
  filter / stable-descending-sort / top-5 ranking pipeline.
* `MainApp` — `main.py`: the composite engine (upstream HTTP clients with
  typed degradation, the two-branch fan-out aggregation, the second scoring
  variant, the synchronous endpoint, and the asynchronous job life cycle
  with its in-memory task registry and status polling).
* `AppRec` — `app/recommender.py`: the small scoring prototype.

Modelling conventions:

* Python dictionaries with a fixed field set become structures; a field read
  with `dict.get(k)` (default `None`) becomes an `Option`; `dict.get(k, d)`
  becomes `Option.getD`.
* Python truthiness of an optional string / number (`if x:`) is
  `truthyOptStr` / `truthyOptQ`: `None`, the empty string and `0` are falsy.
* Python numbers are embedded as `ℚ` (the scores use true division).
* `str.split(",")` and `str.strip()` are embedded as the executable
  functions `pySplitComma` and `pyStrip` over the string's character list,
  mirroring CPython's semantics (split keeps empty fragments, strip drops
  ASCII whitespace from both ends).
* `list.sort(key=k, reverse=True)` (CPython's Timsort, a stable sort) is
  embedded as `List.mergeSort` with the comparison `descBy k`, which is
  exactly a stable descending sort by the key: ties keep input order.
* Upstream HTTP calls are made explicit inputs: a `Resp α` is either an
  HTTP response with a status code and a parsed body, or a transport
  exception (`requests.exceptions.RequestException`, timeouts included).
  Which upstream requests a code path issues is tracked by `CallEvent`
  lists; only membership in the list is meaningful (the two fan-out
  branches run concurrently, so no inter-branch order is modelled).
* Wall-clock effects (`time.sleep`, timestamps) and `uuid` generation are
  not modelled; identifiers are taken as parameters.
-/

/-! ## Python string primitives -/

/-- CPython's `s.split(sep)` for a one-character separator, over the
character list: every occurrence of the separator splits, and empty
fragments are kept (`"".split(",") == [""]`). -/
def pySplitAux (sep : Char) : List Char → List Char → List (List Char)
  | [], acc => [acc.reverse]
  | c :: cs, acc =>
    if c = sep then acc.reverse :: pySplitAux sep cs []
    else pySplitAux sep cs (c :: acc)

/-- Python's `s.split(",")`. -/
def pySplitComma (s : String) : List String :=
  (pySplitAux ',' s.data []).map fun cs => String.mk cs

/-- The ASCII whitespace characters `str.strip()` removes. -/
def pyIsSpace (c : Char) : Bool :=
  c == ' ' || c == '\t' || c == '\n' || c == '\r' || c == '\x0b' || c == '\x0c'

/-- Python's `s.strip()`: drop leading and trailing whitespace. -/
def pyStrip (s : String) : String :=
  String.mk (((s.data.dropWhile pyIsSpace).reverse.dropWhile pyIsSpace).reverse)

/-- Python truthiness of an optional string: `None` and `""` are falsy. -/
def truthyOptStr : Option String → Bool
  | none => false
  | some s => decide (s ≠ "")

/-- Python truthiness of an optional number: `None` and `0` are falsy. -/
def truthyOptQ : Option ℚ → Bool
  | none => false
  | some q => decide (q ≠ 0)

/-- Comparison function modelling `list.sort(key=key, reverse=True)`:
`List.mergeSort` with `descBy key` is a stable descending sort by the key,
exactly like CPython's stable Timsort with `reverse=True`. -/
def descBy {α β : Type} [LinearOrder β] (key : α → β) (a b : α) : Bool :=
  decide (key b ≤ key a)

namespace RecService

/-- Candidate POI document as `RecommendationService._compute_score` reads it:
`vibes`, `activities` and `food` are raw comma-joined tag strings (a missing
key reads as `""` via `poi.get(k, "")`), `spending` is the optional textual
spending category, `budget` the optional numeric budget and `rating` the
optional numeric rating. -/
structure RawPOI where
  id : String
  name : String
  vibes : String
  activities : String
  food : String
  spending : Option String
  budget : Option ℚ
  rating : Option ℚ
  deriving DecidableEq

/-- User profile document as `_compute_score` reads it (each list field via
`user_profile.get(k, [])`, the two scalars via `user_profile.get(k)`). -/
structure UserProfile where
  preferred_vibes : List String
  favorite_foods : List String
  favorite_activities : List String
  spending_preference : Option String
  daily_budget_limit : Option ℚ
  deriving DecidableEq

/-- Embedding of `RecommendationService._extract_poi_tags`'s per-field list
comprehension `[v.strip() for v in raw.split(",") if v.strip()]`. -/
def cleanTags (s : String) : List String :=
  ((pySplitComma s).map pyStrip).filter fun t => decide (t ≠ "")

/-- Embedding of `RecommendationService._extract_poi_tags`: normalise the
three raw tag strings and union them into one tag set. -/
def extract_poi_tags (poi : RawPOI) : Finset String :=
  (cleanTags poi.vibes ++ cleanTags poi.activities ++ cleanTags poi.food).toFinset

/-- Embedding of `RecommendationService._compute_score`, following the
source's sequential `score` accumulation: tag/interest overlap (weight 2),
tag/request-vibes overlap (weight 1), flat 3 for a truthy spending-category
match, flat 2 for a truthy budget fit, and the rating boost. -/
def compute_score (poi : RawPOI) (request_vibes : List String)
    (user_profile : UserProfile) : ℚ :=
  let poi_tags := extract_poi_tags poi
  let user_tags := user_profile.preferred_vibes.toFinset
      ∪ user_profile.favorite_foods.toFinset
      ∪ user_profile.favorite_activities.toFinset
  let request_vibes_set := request_vibes.toFinset
  let score : ℚ := 0
  let score := score + (poi_tags ∩ user_tags).card * 2
  let score := score + (poi_tags ∩ request_vibes_set).card
  let score := if truthyOptStr user_profile.spending_preference = true
      ∧ poi.spending = user_profile.spending_preference then score + 3 else score
  let score := if truthyOptQ user_profile.daily_budget_limit = true
      ∧ truthyOptQ poi.budget = true
      ∧ poi.budget.getD 0 ≤ user_profile.daily_budget_limit.getD 0
      then score + 2 else score
  score + poi.rating.getD 0 / 5 * 2

/-- The user's aggregate interest set of the specification: the union of
preferred vibes, favorite foods and favorite activities. -/
def interestSet (u : UserProfile) : Finset String :=
  u.preferred_vibes.toFinset ∪ u.favorite_foods.toFinset
    ∪ u.favorite_activities.toFinset

/-- The composite-score formula exactly as the specification's claim words
it: the two overlap terms, a flat 3 whenever the spending preference is
*set* (present) and equal to the candidate's category, a flat 2 whenever
both budget figures are *set* (present) and the candidate's budget is within
the limit, plus the rating boost. -/
def claimScore (poi : RawPOI) (request_vibes : List String)
    (user : UserProfile) : ℚ :=
  2 * ((extract_poi_tags poi ∩ interestSet user).card : ℚ)
    + ((extract_poi_tags poi ∩ request_vibes.toFinset).card : ℚ)
    + (if user.spending_preference.isSome = true
          ∧ poi.spending = user.spending_preference then 3 else 0)
    + (if user.daily_budget_limit.isSome = true ∧ poi.budget.isSome = true
          ∧ poi.budget.getD 0 ≤ user.daily_budget_limit.getD 0 then 2 else 0)
    + poi.rating.getD 0 / 5 * 2

/-- The claim's formula amended to the source's truthiness tests: the flat 3
requires a *non-empty* spending preference string, and the flat 2 requires
both budget figures to be *non-zero* (Python's `if x:` on the values). -/
def amendedScore (poi : RawPOI) (request_vibes : List String)
    (user : UserProfile) : ℚ :=
  2 * ((extract_poi_tags poi ∩ interestSet user).card : ℚ)
    + ((extract_poi_tags poi ∩ request_vibes.toFinset).card : ℚ)
    + (if truthyOptStr user.spending_preference = true
          ∧ poi.spending = user.spending_preference then 3 else 0)
    + (if truthyOptQ user.daily_budget_limit = true
          ∧ truthyOptQ poi.budget = true
          ∧ poi.budget.getD 0 ≤ user.daily_budget_limit.getD 0 then 2 else 0)
    + poi.rating.getD 0 / 5 * 2

end RecService




namespace RecService

/-- Fallback profile `get_recommendations` substitutes for anonymous users
(`user_profile or {...}` in the source). -/
def defaultProfile : UserProfile :=
  { preferred_vibes := [], favorite_activities := [], favorite_foods := [],
    spending_preference := none, daily_budget_limit := none }

/-- POI dictionary with its computed score added (`poi_entry["score"] = score`
on a copy of the POI entry). -/
structure ScoredEntry where
  poi : RawPOI
  score : ℚ
  deriving DecidableEq

/-- Scoring loop of `RecommendationService.get_recommendations` STEP 2: score
every fetched POI and keep exactly those with a strictly positive score, in
input order. -/
def scoredCandidates (request_vibes : List String)
    (user_profile : Option UserProfile) (pois_data : List RawPOI) :
    List ScoredEntry :=
  let prof := user_profile.getD defaultProfile
  pois_data.filterMap fun poi =>
    let score := compute_score poi request_vibes prof
    if 0 < score then some { poi := poi, score := score } else none

/-- Ranking of `RecommendationService.get_recommendations`: the scored
candidates, stably sorted by descending score
(`scored_pois.sort(key=..., reverse=True)`), truncated to the top 5
(`scored_pois[:5]`). The response's `pois` field lists exactly these
entries' POIs; persistence and itinerary generation are external effects
with no bearing on the ranking. -/
def get_recommendations (request_vibes : List String)
    (user_profile : Option UserProfile) (pois_data : List RawPOI) :
    List ScoredEntry :=
  ((scoredCandidates request_vibes user_profile pois_data).mergeSort
      (descBy ScoredEntry.score)).take 5

end RecService


namespace MainApp

/-- Outcome of one upstream HTTP request as the clients in `main.py` observe
it: an HTTP response with a status code and a parsed JSON body, or a
transport exception (`requests.exceptions.RequestException`, which includes
the 5-second timeout). -/
inductive Resp (α : Type) where
  | http : Nat → α → Resp α
  | exn : String → Resp α
  deriving DecidableEq

/-- Raw user document returned by `GET /users/{id}` (opaque to the engine). -/
abbrev UserData := String

/-- Preferences document returned by `GET /users/{id}/preferences`, as a
JSON-object key/value list; the degraded value is the empty document `[]`. -/
abbrev Prefs := List (String × String)

/-- City document returned by `GET /cities/{city}` (opaque to the engine). -/
abbrev CityInfo := String

/-- POI document of `main.py`'s catalog service, with the fields
`_compute_recommendations` reads (`poi.get(...)` on each). -/
structure MainPOI where
  id : Option String
  name : Option String
  type : Option String
  description : Option String
  location : Option String
  tags : List String
  budget : Option String
  rating : Option ℚ
  deriving DecidableEq

/-- Embedding of FastAPI's `HTTPException(status_code, detail)`. -/
structure HTTPException where
  status_code : Nat
  detail : String
  deriving DecidableEq

/-- The four upstream requests a pipeline run may issue; traces of these
model the call-count assertions of the specification. Only membership is
meaningful: the two fan-out branches run concurrently. -/
inductive CallEvent where
  | userCall
  | prefsCall
  | poisCall
  | cityCall
  deriving DecidableEq

/-- One pipeline run's upstream world: the response each of the four
requests would get if issued. -/
structure Upstream where
  userResp : Resp UserData
  prefsResp : Resp Prefs
  poisResp : Resp (List MainPOI)
  cityResp : Resp CityInfo
  deriving DecidableEq

/-- Embedding of `UserServiceClient.get_user`: a 200 response yields the
body; any other status raises 404 "not found"; a transport exception raises
503 "unavailable" (the `HTTPException` raised inside the `try` is not a
`RequestException`, so it propagates unchanged). -/
def get_user (user_id : String) (resp : Resp UserData) :
    Except HTTPException UserData :=
  match resp with
  | .http 200 u => .ok u
  | .http _ _ => .error ⟨404, "User " ++ user_id ++ " not found"⟩
  | .exn e => .error ⟨503, "User service unavailable: " ++ e⟩

/-- Embedding of `UserServiceClient.get_user_preferences`: best-effort — any
non-200 status or transport exception degrades to the empty document. -/
def get_user_preferences (resp : Resp Prefs) : Prefs :=
  match resp with
  | .http 200 p => p
  | .http _ _ => []
  | .exn _ => []

/-- Embedding of `CatalogServiceClient.get_pois`: best-effort — any non-200
status or transport exception degrades to the empty candidate list. The
query parameters (`city`, `tags`, `budget`) only shape the request and are
absorbed into the modelled response. -/
def get_pois (resp : Resp (List MainPOI)) : List MainPOI :=
  match resp with
  | .http 200 pois => pois
  | .http _ _ => []
  | .exn _ => []

/-- Embedding of `CatalogServiceClient.get_city_info`: best-effort, `None`
on any failure. -/
def get_city_info (resp : Resp CityInfo) : Option CityInfo :=
  match resp with
  | .http 200 c => some c
  | .http _ _ => none
  | .exn _ => none

/-- Ranked recommendation entry built by
`RecommendationEngine._compute_recommendations` (`matching_tags` is a Python
set, hence a `Finset`). -/
structure MainScored where
  poi_id : Option String
  name : Option String
  type : Option String
  description : Option String
  location : Option String
  budget : Option String
  rating : Option ℚ
  score : ℚ
  matching_tags : Finset String
  reason : String
  deriving DecidableEq

/-- Per-POI score of `RecommendationEngine._compute_recommendations`:
request-vibes overlap (weight 2), flat 3 on a truthy budget-string match,
user-interests overlap (weight 1), and the rating boost. -/
def main_compute_score (poi : MainPOI) (vibes : List String)
    (budget : Option String) (user_interests : List String) : ℚ :=
  let score : ℚ := 0
  let matching_tags := poi.tags.toFinset ∩ vibes.toFinset
  let score := score + matching_tags.card * 2
  let score := if truthyOptStr budget = true ∧ poi.budget = budget
      then score + 3 else score
  let matching_interests := poi.tags.toFinset ∩ user_interests.toFinset
  let score := score + matching_interests.card
  score + poi.rating.getD 0 / 5 * 2

/-- Embedding of `RecommendationEngine._compute_recommendations`: score the
first 10 candidates (`pois[:10]`), keep those with a strictly positive
score, sort by descending score (stable `list.sort(..., reverse=True)`) and
return the top 5. `user_interests` is what
`data.get('user_preferences', {}).get('interests', [])` yields — see
`generate_recommendations` for the value the engine actually passes. -/
def main_compute_recommendations (vibes : List String) (budget : Option String)
    (user_interests : List String) (pois : List MainPOI) : List MainScored :=
  (((pois.take 10).filterMap fun poi =>
      let matching_tags := poi.tags.toFinset ∩ vibes.toFinset
      let score := main_compute_score poi vibes budget user_interests
      if 0 < score then
        some { poi_id := poi.id, name := poi.name, type := poi.type,
               description := poi.description, location := poi.location,
               budget := poi.budget, rating := poi.rating, score := score,
               matching_tags := matching_tags,
               reason := "Matches " ++ toString matching_tags.card
                 ++ " of your preferences" }
      else none).mergeSort (descBy MainScored.score)).take 5

/-- Hard failure of the fan-out aggregation: the
`HTTPException(status_code=500, detail=f"Service errors: {errors}")` raised
by `generate_recommendations`, carrying the branch-name → failure-reason
mapping (the reason kept structured instead of Python's `str(e)`). -/
structure AggFailure where
  status_code : Nat
  errors : List (String × HTTPException)
  deriving DecidableEq

/-- Combined payload `generate_recommendations` returns when neither branch
recorded an error. -/
structure AggregatePayload where
  user_data : UserData
  user_preferences : Prefs
  pois : List MainPOI
  city_info : Option CityInfo
  recommendations : List MainScored
  deriving DecidableEq

/-- Embedding of `RecommendationEngine.generate_recommendations` (the
fan-out). The user branch runs `get_user` then `get_user_preferences` and
records the raised `HTTPException`, if any, under the key `"user"`; the
catalog branch runs `get_pois` and (for a truthy destination)
`get_city_info`, neither of which can raise, so the `"catalog"` error slot
is never filled. Both branches are joined before scoring: the result is a
function of both branch outcomes. If any error was recorded the call fails
with status 500 carrying the error mapping; otherwise the combined payload
is returned. Scoring receives `[]` for the user interests because the
source stores the preferences under the key `'preferences'` but
`_compute_recommendations` reads `data.get('user_preferences', {})`, which
always misses. -/
def generate_recommendations (env : Upstream) (user_id : String)
    (destination : Option String) (vibes : List String)
    (budget : Option String) : Except AggFailure AggregatePayload :=
  match get_user user_id env.userResp with
  | .error e => .error { status_code := 500, errors := [("user", e)] }
  | .ok u =>
      let preferences := get_user_preferences env.prefsResp
      let pois := get_pois env.poisResp
      let city_info := if truthyOptStr destination = true
          then get_city_info env.cityResp else none
      .ok { user_data := u, user_preferences := preferences, pois := pois,
            city_info := city_info,
            recommendations :=
              main_compute_recommendations vibes budget [] pois }

/-- Upstream requests one run of `generate_recommendations` issues: the user
branch always calls `get_user` and, when it succeeds, `get_user_preferences`;
the catalog branch always calls `get_pois` and, for a truthy destination,
`get_city_info`. Both threads are started unconditionally, so the catalog
calls are issued regardless of the user branch's outcome. -/
def engineCalls (env : Upstream) (user_id : String)
    (destination : Option String) : List CallEvent :=
  (CallEvent.userCall ::
      (match get_user user_id env.userResp with
        | .ok _ => [CallEvent.prefsCall]
        | .error _ => []))
    ++ (CallEvent.poisCall ::
      (if truthyOptStr destination = true then [CallEvent.cityCall] else []))

/-- Parsing of the `vibes` query parameter by the HTTP endpoints:
`[v.strip() for v in vibes.split(",")] if vibes else []` (no empty-fragment
filtering here, unlike the tag normaliser). -/
def parseVibes (vibes : String) : List String :=
  if vibes = "" then [] else (pySplitComma vibes).map pyStrip

/-- Body of the 200 response of `GET /recommendations/{user_id}` (identifier
and timestamp generation are external). -/
structure RecommendationResponse where
  user_id : String
  destination : String
  payload : AggregatePayload
  deriving DecidableEq

/-- Embedding of the synchronous endpoint `get_recommendations` in
`main.py`: parse the vibes, run the fan-out engine directly — with no prior
user-existence check — and wrap the result; alongside, the upstream calls
the run issues. -/
def sync_get_recommendations (env : Upstream) (user_id : String)
    (destination : Option String) (vibes : String) (budget : Option String) :
    Except AggFailure RecommendationResponse × List CallEvent :=
  ((generate_recommendations env user_id destination (parseVibes vibes)
      budget).map fun result =>
        { user_id := user_id, destination := destination.getD "general",
          payload := result },
    engineCalls env user_id destination)

end MainApp

namespace MainApp

/-- Status strings stored in the `tasks` registry. -/
inductive TaskStatus where
  | accepted
  | processing
  | completed
  | failed
  deriving DecidableEq

/-- The status string as the registry and the poll response carry it. -/
def statusText : TaskStatus → String
  | .accepted => "accepted"
  | .processing => "processing"
  | .completed => "completed"
  | .failed => "failed"

/-- One value of `tasks[task_id]`: the status plus the optional `progress`,
`result` and `error` keys of the stored dictionary (the timestamps
`completed_at` / `failed_at` are not modelled). -/
structure TaskEntry where
  status : TaskStatus
  progress : Option ℚ
  result : Option AggregatePayload
  error : Option AggFailure
  deriving DecidableEq

/-- The in-memory `tasks` dictionary, as an association list where an
assignment prepends (first match wins on lookup). -/
abbrev Registry := List (String × TaskEntry)

/-- Dictionary lookup `tasks.get(task_id)`. -/
def rlookup : Registry → String → Option TaskEntry
  | [], _ => none
  | (k, v) :: rest, key => if k = key then some v else rlookup rest key

/-- Dictionary assignment `tasks[task_id] = entry`. -/
def rinsert (key : String) (v : TaskEntry) (tasks : Registry) : Registry :=
  (key, v) :: tasks

/-- Registry entry written by `start_async_recommendations` at job
creation: `{"status": "accepted", "progress": 0.0}`. -/
def acceptedEntry : TaskEntry :=
  { status := .accepted, progress := some 0, result := none, error := none }

/-- Registry entry `{"status": "processing", "progress": p}`. -/
def processingEntry (p : ℚ) : TaskEntry :=
  { status := .processing, progress := some p, result := none, error := none }

/-- Terminal registry entry for a successful run: progress 1.0 and the full
result (`completed_at` not modelled). -/
def completedEntry (r : AggregatePayload) : TaskEntry :=
  { status := .completed, progress := some 1, result := some r, error := none }

/-- Terminal registry entry for a failed run: `{"status": "failed", "error":
str(e), "failed_at": ...}` — note it stores no `progress` key. -/
def failedEntry (f : AggFailure) : TaskEntry :=
  { status := .failed, progress := none, result := none, error := some f }

/-- Embedding of the background task `generate_recommendations_async` as the
sequence of values it assigns to `tasks[task_id]`, given the pipeline
outcome: processing at 0.1, processing at 0.5 (the `time.sleep(2)` in
between is not modelled), then the terminal entry. The `try` block's first
statement is the 0.1 write, so a failure always happens after `processing`
was entered. -/
def generate_recommendations_async
    (outcome : Except AggFailure AggregatePayload) : List TaskEntry :=
  [processingEntry (1/10), processingEntry (1/2)] ++
    (match outcome with
      | .ok r => [completedEntry r]
      | .error f => [failedEntry f])

/-- Complete life cycle of one job's registry entry: the `accepted` entry
written at submission (FastAPI runs the background task only after the
response, hence after this write), followed by the background task's
writes. -/
def jobTrace (outcome : Except AggFailure AggregatePayload) : List TaskEntry :=
  acceptedEntry :: generate_recommendations_async outcome

/-- Transitions the specification's job state machine allows. -/
def stepOK : TaskStatus → TaskStatus → Prop
  | .accepted, .processing => True
  | .processing, .processing => True
  | .processing, .completed => True
  | .processing, .failed => True
  | _, _ => False

/-- Body of the 202 response of `POST /recommendations/async/{user_id}`. -/
structure AsyncTaskResponse where
  task_id : String
  status : String
  message : String
  deriving DecidableEq

/-- Embedding of `start_async_recommendations`: an eager `get_user` check —
any `HTTPException` it raises (404 or 503) is re-raised as a plain 404
"User not found" — and only on success is the background pipeline scheduled
and the `accepted` registry entry written. The result carries the 202
response, the registry after submission, and the writes the scheduled
background run will perform; the call-event list holds the upstream
requests issued by the submission itself (just the user check — in the
failure case nothing is scheduled, so no catalog call is ever made for the
request). -/
def start_async_recommendations (env : Upstream) (user_id : String)
    (destination : Option String) (vibes : String) (budget : Option String)
    (task_id : String) (tasks : Registry) :
    Except HTTPException (AsyncTaskResponse × Registry × List TaskEntry)
      × List CallEvent :=
  match get_user user_id env.userResp with
  | .error _ =>
      (.error ⟨404, "User " ++ user_id ++ " not found"⟩, [CallEvent.userCall])
  | .ok _ =>
      (.ok ({ task_id := task_id, status := "accepted",
              message := "Recommendation generation started" },
            rinsert task_id acceptedEntry tasks,
            generate_recommendations_async
              (generate_recommendations env user_id destination
                (parseVibes vibes) budget)),
        [CallEvent.userCall])

/-- Body of the 200 response of `GET /recommendations/status/{task_id}`. -/
structure TaskStatusResponse where
  task_id : String
  status : String
  result : Option AggregatePayload
  progress : Option ℚ
  deriving DecidableEq

/-- Embedding of the polling endpoint `get_async_task_status`: 404 for an
unknown task id, otherwise the stored status, the stored result if any, and
`task.get("progress", 0.0)`. The handler only reads `tasks`; the returned
registry is the state after the call. -/
def get_async_task_status (task_id : String) (tasks : Registry) :
    Except HTTPException TaskStatusResponse × Registry :=
  match rlookup tasks task_id with
  | none => (.error ⟨404, "Task not found"⟩, tasks)
  | some t =>
      (.ok { task_id := task_id, status := statusText t.status,
             result := t.result, progress := some (t.progress.getD 0) },
        tasks)

end MainApp

namespace AppRec

/-- POI record of `app/recommender.py`'s sample data: a name, a budget
class and a tag list. -/
structure AppPOI where
  name : String
  budget : String
  tags : List String
  deriving DecidableEq

/-- Per-POI score of `app/recommender.py`: 1 for a budget match plus the
tag/vibes overlap. -/
def app_score (vibes : List String) (budget : String) (poi : AppPOI) : ℕ :=
  let score := 0
  let score := if poi.budget = budget then score + 1 else score
  score + (poi.tags.toFinset ∩ vibes.toFinset).card

/-- The `ranked` list of `app/recommender.py`'s `get_recommendations`:
every POI paired with its score, stably sorted by descending score
(`sorted(scored_pois, key=lambda x: x[1], reverse=True)`). -/
def app_ranked (vibes : List String) (budget : String)
    (pois : List AppPOI) : List (AppPOI × ℕ) :=
  (pois.map fun poi => (poi, app_score vibes budget poi)).mergeSort
    (descBy Prod.snd)

/-- The ranked entries the list comprehension keeps: exactly those with a
strictly positive score. -/
def app_selected (vibes : List String) (budget : String)
    (pois : List AppPOI) : List (AppPOI × ℕ) :=
  (app_ranked vibes budget pois).filter fun x => decide (0 < x.2)

/-- One rendered recommendation entry. -/
structure AppRecEntry where
  name : String
  reason : String
  deriving DecidableEq

/-- Embedding of `app/recommender.py`'s `get_recommendations`: render the
selected entries; if none scored positively, return the "No matches found"
placeholder instead (the POI data file load is taken as the `pois`
parameter; `preferences.get("vibes", [])` and
`preferences.get("budget", "medium")` as `vibes` and `budget`). -/
def app_get_recommendations (vibes : List String) (budget : String)
    (pois : List AppPOI) : List AppRecEntry :=
  let recommendations := (app_selected vibes budget pois).map fun x =>
    { name := x.1.name,
      reason := "Matches your " ++ String.intercalate ", " vibes
        ++ " preferences; popular spot!" : AppRecEntry }
  if recommendations = [] then
    [{ name := "No matches found", reason := "Try adjusting preferences." }]
  else recommendations

end AppRec

def cexEnv : MainApp.Upstream :=
  { userResp := .http 404 "", prefsResp := .http 200 [],
    poisResp := .http 200 [], cityResp := .http 200 "" }

def cexPOI : RecService.RawPOI :=
  { id := "poi_zero", name := "Zero Budget Cafe", vibes := "", activities := "",
    food := "", spending := none, budget := some 0, rating := none }

def cexProfile : RecService.UserProfile :=
  { preferred_vibes := [], favorite_foods := [], favorite_activities := [],
    spending_preference := none, daily_budget_limit := some 0 }

/-! ## Theorems -/

/-! ## Generic facts about the stable descending sort -/

theorem descBy_trans {α β : Type} [LinearOrder β] (key : α → β) :
    ∀ a b c : α, descBy key a b → descBy key b c → descBy key a c := by
  intro a b c hab hbc
  simp only [descBy, decide_eq_true_eq] at *
  exact le_trans hbc hab

theorem descBy_total {α β : Type} [LinearOrder β] (key : α → β) :
    ∀ a b : α, descBy key a b || descBy key b a := by
  intro a b
  simp only [descBy, Bool.or_eq_true, decide_eq_true_eq]
  exact le_total (key b) (key a)

theorem pairwise_key_mergeSort {α β : Type} [LinearOrder β] (key : α → β)
    (l : List α) :
    (l.mergeSort (descBy key)).Pairwise fun a b => key b ≤ key a := by
  have h := List.sorted_mergeSort (descBy_trans key) (descBy_total key) l
  exact h.imp fun hab => by simpa [descBy] using hab

/-- Stability of the embedded sort: restricted to any single key value, the
sorted list is the input list's sublist of that key value, in input order. -/
theorem filter_key_mergeSort {α β : Type} [LinearOrder β] [DecidableEq β]
    (key : α → β) (l : List α) (s : β) :
    (l.mergeSort (descBy key)).filter (fun x => decide (key x = s))
      = l.filter fun x => decide (key x = s) := by
  set p : α → Bool := fun x => decide (key x = s) with hp
  have hBfilter : (l.filter p).filter p = l.filter p := by
    simp [List.filter_filter]
  have hBpair : (l.filter p).Pairwise (fun a b => descBy key a b = true) := by
    refine List.pairwise_of_forall_mem_list ?_
    intro a ha b hb
    have ha' := (List.mem_filter.mp ha).2
    have hb' := (List.mem_filter.mp hb).2
    simp only [hp, decide_eq_true_eq] at ha' hb'
    simp [descBy, ha', hb']
  have hBsub : List.Sublist (l.filter p) (l.mergeSort (descBy key)) :=
    List.sublist_mergeSort (descBy_trans key) (descBy_total key) hBpair
      (List.filter_sublist l)
  have hsub : List.Sublist (l.filter p) ((l.mergeSort (descBy key)).filter p) := by
    have := hBsub.filter p
    rwa [hBfilter] at this
  have hperm : List.Perm ((l.mergeSort (descBy key)).filter p) (l.filter p) :=
    (List.mergeSort_perm l (descBy key)).filter p
  exact (hsub.eq_of_length hperm.length_eq.symm).symm

/-- Membership in the truncated sort: an element whose key at most `k - 1`
other elements (weakly) exceed lands within the first `k` after the
descending sort. -/
theorem mem_take_mergeSort {α β : Type} [LinearOrder β] (key : α → β)
    (l : List α) (k : ℕ) (e : α) (he : e ∈ l)
    (hc : (l.filter fun x => decide (key e ≤ key x)).length ≤ k) :
    e ∈ (l.mergeSort (descBy key)).take k := by
  set q : α → Bool := fun x => decide (key e ≤ key x) with hq
  have hmem : e ∈ l.mergeSort (descBy key) := List.mem_mergeSort.mpr he
  obtain ⟨l₁, l₂, hsplit⟩ := List.append_of_mem hmem
  have hpair := pairwise_key_mergeSort key l
  rw [hsplit] at hpair
  have hl₁ : ∀ x ∈ l₁, key e ≤ key x := by
    intro x hx
    exact (List.pairwise_append.mp hpair).2.2 x hx e (List.mem_cons_self e l₂)
  have hfl : (l.filter q).length = ((l.mergeSort (descBy key)).filter q).length :=
    (((List.mergeSort_perm l (descBy key)).filter q).length_eq).symm
  have hlen : l₁.length + 1 ≤ k := by
    have hfilter₁ : l₁.filter q = l₁ :=
      List.filter_eq_self.mpr fun a ha => by
        simp [hq, hl₁ a ha]
    have : ((l₁ ++ e :: l₂).filter q).length = l₁.length + 1 + (l₂.filter q).length := by
      simp [List.filter_append, hfilter₁, hq, List.length_append]
      omega
    have hk := hc
    rw [hfl, hsplit, this] at hk
    omega
  rw [hsplit, List.take_append_eq_append_take,
    List.take_of_length_le (by omega : l₁.length ≤ k)]
  have hk1 : 1 ≤ k - l₁.length := by omega
  rcases Nat.exists_eq_add_of_le hk1 with ⟨m, hm⟩
  rw [hm]
  simp [List.take_cons]

theorem mem_scoredCandidates (rv : List String)
    (up : Option RecService.UserProfile) (pois : List RecService.RawPOI)
    (e : RecService.ScoredEntry) :
    e ∈ RecService.scoredCandidates rv up pois ↔
      e.poi ∈ pois ∧ 0 < e.score
        ∧ e.score = RecService.compute_score e.poi rv
            (up.getD RecService.defaultProfile) := by
  simp only [RecService.scoredCandidates, List.mem_filterMap]
  constructor
  · rintro ⟨a, ha, hfa⟩
    split at hfa
    · cases hfa
      exact ⟨ha, by assumption, rfl⟩
    · cases hfa
  · rintro ⟨hmem, hpos, hscore⟩
    refine ⟨e.poi, hmem, ?_⟩
    rw [if_pos (hscore ▸ hpos), ← hscore]

/-- C2. The ranked output of `RecommendationService.get_recommendations` is
the positively-scoring candidates, stably sorted by descending score and
truncated to 5: the output length is `min 5` the number of positive
candidates; scores are non-increasing along the output; every output entry
is an input candidate carrying its own strictly positive computed score;
for each fixed score value the output preserves the input order of the
tied candidates (stability); and any positive candidate weakly outscored
by at most 5 candidates (itself included) — in particular any candidate
ranked in the top 5 — appears in the output wherever it sat in the input. -/
theorem get_recommendations_ranking (rv : List String)
    (up : Option RecService.UserProfile) (pois : List RecService.RawPOI) :
    (RecService.get_recommendations rv up pois).length
        = min 5 (RecService.scoredCandidates rv up pois).length
    ∧ (RecService.get_recommendations rv up pois).Pairwise
        (fun a b => b.score ≤ a.score)
    ∧ (∀ e ∈ RecService.get_recommendations rv up pois,
        e.poi ∈ pois ∧ 0 < e.score
          ∧ e.score = RecService.compute_score e.poi rv
              (up.getD RecService.defaultProfile))
    ∧ (∀ s : ℚ,
        (RecService.get_recommendations rv up pois).filter
            (fun e => decide (e.score = s))
          = ((RecService.scoredCandidates rv up pois).filter
            (fun e => decide (e.score = s))).take
              (((RecService.get_recommendations rv up pois).filter
                (fun e => decide (e.score = s))).length))
    ∧ (∀ e ∈ RecService.scoredCandidates rv up pois,
        ((RecService.scoredCandidates rv up pois).filter
            (fun x => decide (e.score ≤ x.score))).length ≤ 5
          → e ∈ RecService.get_recommendations rv up pois) := by
  refine ⟨?_, ?_, ?_, ?_, ?_⟩
  · simp [RecService.get_recommendations, List.length_take, Nat.min_comm]
  · exact ((pairwise_key_mergeSort RecService.ScoredEntry.score _).sublist
      (List.take_sublist _ _))
  · intro e he
    exact (mem_scoredCandidates rv up pois e).mp
      (List.mem_mergeSort.mp (List.mem_of_mem_take he))
  · intro s
    have hpf := (List.take_prefix 5
        ((RecService.scoredCandidates rv up pois).mergeSort
          (descBy RecService.ScoredEntry.score))).filter
      (fun e => decide (e.score = s))
    have heq := List.prefix_iff_eq_take.mp hpf
    simp only [RecService.get_recommendations]
    rw [filter_key_mergeSort] at heq
    exact heq
  · intro e he hc
    exact mem_take_mergeSort RecService.ScoredEntry.score _ 5 e
      ((mem_scoredCandidates rv up pois e).mpr
        ((mem_scoredCandidates rv up pois e).mp he)) hc

/-- C1 (amended). For every candidate POI, request-vibes list and user
profile, the composite score computed by
`RecommendationService._compute_score` equals the sum of: 2 × the
tag/interest overlap; 1 × the tag/request-vibes overlap; a flat 3 when the
spending preference is a non-empty string equal to the candidate's spending
category; a flat 2 when the daily budget limit and the candidate's budget
are both set and non-zero and the budget is within the limit; plus
(rating / 5) × 2 with the rating defaulting to 0. -/
theorem compute_score_formula_amended (poi : RecService.RawPOI) (rv : List String)
    (u : RecService.UserProfile) :
    RecService.compute_score poi rv u = RecService.amendedScore poi rv u := by
  simp only [RecService.compute_score, RecService.amendedScore,
    RecService.interestSet]
  split_ifs <;> ring

/-- C1 counterexample. With the daily budget limit *set to 0* and the
candidate's budget *set to 0*, the claimed formula adds the flat budget
bonus of 2 (both values are set and 0 ≤ 0) but the code adds nothing,
because Python's `if daily_budget and poi.get("budget")` treats the set
value 0 as falsy: the claimed sum and the computed score differ. -/
theorem compute_score_claim_counterexample :
    RecService.compute_score cexPOI [] cexProfile
      ≠ RecService.claimScore cexPOI [] cexProfile := by
  simp only [RecService.compute_score, RecService.claimScore, cexPOI, cexProfile,
    RecService.interestSet, RecService.extract_poi_tags, RecService.cleanTags,
    pySplitComma, pySplitAux, pyStrip, pyIsSpace, truthyOptQ, truthyOptStr]
  norm_num

/-- C3. Across all three recommendation variants, a POI entry reaches the
output ranking only with a strictly positive computed score: this holds for
`RecommendationService.get_recommendations`, for
`RecommendationEngine._compute_recommendations` in `main.py`, and for the
entries `app/recommender.py` keeps from its ranked list — whose returned
list is exactly the rendering of those kept entries, except that when none
scored positively a fixed "No matches found" placeholder (not a scored POI
entry) is returned instead. -/
theorem positive_score_output_invariant :
    (∀ (rv : List String) (up : Option RecService.UserProfile)
        (pois : List RecService.RawPOI),
      ∀ e ∈ RecService.get_recommendations rv up pois, 0 < e.score)
    ∧ (∀ (vibes : List String) (budget : Option String)
        (interests : List String) (pois : List MainApp.MainPOI),
      ∀ r ∈ MainApp.main_compute_recommendations vibes budget interests pois,
        0 < r.score)
    ∧ (∀ (vibes : List String) (budget : String) (pois : List AppRec.AppPOI),
      ∀ x ∈ AppRec.app_selected vibes budget pois, 0 < x.2)
    ∧ (∀ (vibes : List String) (budget : String) (pois : List AppRec.AppPOI),
      AppRec.app_get_recommendations vibes budget pois
          = [{ name := "No matches found",
               reason := "Try adjusting preferences." }]
        ∨ AppRec.app_get_recommendations vibes budget pois
          = (AppRec.app_selected vibes budget pois).map fun x =>
              { name := x.1.name,
                reason := "Matches your " ++ String.intercalate ", " vibes
                  ++ " preferences; popular spot!" }) := by
  refine ⟨?_, ?_, ?_, ?_⟩
  · intro rv up pois e he
    exact ((mem_scoredCandidates rv up pois e).mp
      (List.mem_mergeSort.mp (List.mem_of_mem_take he))).2.1
  · intro vibes budget interests pois r hr
    have hmem := List.mem_mergeSort.mp (List.mem_of_mem_take hr)
    obtain ⟨a, _, hfa⟩ := List.mem_filterMap.mp hmem
    dsimp only at hfa
    split at hfa
    · cases hfa
      assumption
    · cases hfa
  · intro vibes budget pois x hx
    simpa using (List.mem_filter.mp hx).2
  · intro vibes budget pois
    unfold AppRec.app_get_recommendations
    dsimp only
    split
    · exact Or.inl rfl
    · exact Or.inr rfl

/-- C4. The fan-out aggregation of `RecommendationEngine` is a function of
both branch outcomes (both are joined before scoring): whenever the user
branch records a hard failure `e`, the aggregate call fails with status 500
carrying the branch-name → failure-reason mapping `[("user", e)]` (the
catalog branch's lookups degrade to empty data instead of failing, so the
`"catalog"` slot is never filled); whenever the user branch succeeds —
including with degraded empty preferences or an empty candidate list — the
call returns the combined payload built from both branches, with no
error. -/
theorem fanout_join_and_aggregate_errors (env : MainApp.Upstream)
    (uid : String) (dest : Option String) (vibes : List String)
    (budget : Option String) :
    (∀ e, MainApp.get_user uid env.userResp = .error e →
      MainApp.generate_recommendations env uid dest vibes budget
        = .error { status_code := 500, errors := [("user", e)] })
    ∧ (∀ u, MainApp.get_user uid env.userResp = .ok u →
      MainApp.generate_recommendations env uid dest vibes budget
        = .ok { user_data := u,
                user_preferences := MainApp.get_user_preferences env.prefsResp,
                pois := MainApp.get_pois env.poisResp,
                city_info := if truthyOptStr dest = true
                  then MainApp.get_city_info env.cityResp else none,
                recommendations := MainApp.main_compute_recommendations vibes
                  budget [] (MainApp.get_pois env.poisResp) }) := by
  constructor
  · intro e he
    unfold MainApp.generate_recommendations
    rw [he]
  · intro u hu
    unfold MainApp.generate_recommendations
    rw [hu]


/-- C5 counterexample. For a request whose `userId` does not exist upstream
(the user service answers 404), the synchronous path does *not* return a
client-error ValidationFailure before the catalog call: it fans out
unconditionally — the catalog `get_pois` call is issued — and the user
branch's 404 surfaces only as the 500-class aggregate failure. -/
theorem eager_validation_counterexample :
    (MainApp.sync_get_recommendations cexEnv "u42" (some "Paris") ""
        none).1
      = .error { status_code := 500,
                 errors := [("user", ⟨404, "User u42 not found"⟩)] }
    ∧ MainApp.CallEvent.poisCall
      ∈ (MainApp.sync_get_recommendations cexEnv "u42" (some "Paris") ""
        none).2 := by
  constructor
  · rfl
  · simp [MainApp.sync_get_recommendations, MainApp.engineCalls, cexEnv,
      MainApp.get_user]

/-- C5 amended. Only the asynchronous submission path validates the user
eagerly: when the user lookup fails, `start_async_recommendations` returns
the 404 ValidationFailure having issued only the user call — no catalog
call is ever made for that request — while the synchronous path issues the
catalog call regardless and reports the same situation as a 500-class
aggregate failure. -/
theorem eager_validation_async_only (env : MainApp.Upstream) (uid : String)
    (dest : Option String) (vibes : String) (budget : Option String)
    (task_id : String) (tasks : MainApp.Registry) :
    (∀ e, MainApp.get_user uid env.userResp = .error e →
      (MainApp.start_async_recommendations env uid dest vibes budget task_id
          tasks).1
        = .error ⟨404, "User " ++ uid ++ " not found"⟩
      ∧ (MainApp.start_async_recommendations env uid dest vibes budget task_id
          tasks).2 = [MainApp.CallEvent.userCall]
      ∧ MainApp.CallEvent.poisCall
        ∉ (MainApp.start_async_recommendations env uid dest vibes budget
          task_id tasks).2)
    ∧ (∀ e, MainApp.get_user uid env.userResp = .error e →
      (MainApp.sync_get_recommendations env uid dest vibes budget).1
        = .error { status_code := 500, errors := [("user", e)] }
      ∧ MainApp.CallEvent.poisCall
        ∈ (MainApp.sync_get_recommendations env uid dest vibes budget).2) := by
  constructor
  · intro e he
    unfold MainApp.start_async_recommendations
    rw [he]
    exact ⟨rfl, rfl, by simp⟩
  · intro e he
    constructor
    · simp only [MainApp.sync_get_recommendations]
      unfold MainApp.generate_recommendations
      rw [he]
      rfl
    · simp [MainApp.sync_get_recommendations, MainApp.engineCalls]

/-- C6. Job life cycle: a job is created as `accepted` with progress 0.0
(both in the registry entry `start_async_recommendations` writes and at the
head of the job's write trace); every transition along the trace obeys
accepted → processing → (completed | failed) with no state skipped; a
terminal entry occurs only as the last write, so no transition leaves a
terminal state; every `completed` entry carries progress 1.0 and a non-null
result and every `failed` entry a non-null error; and polling a `completed`
job is idempotent — the poll leaves the registry unchanged and a repeated
poll returns the identical payload, the stored result. -/
theorem job_state_machine (outcome : Except MainApp.AggFailure
      MainApp.AggregatePayload) (env : MainApp.Upstream) (uid : String)
    (dest : Option String) (vibes : String) (budget : Option String)
    (task_id : String) (tasks : MainApp.Registry) (e : MainApp.TaskEntry) :
    (∀ u, MainApp.get_user uid env.userResp = .ok u →
      ∃ r, (MainApp.start_async_recommendations env uid dest vibes budget
            task_id tasks).1 = .ok r
        ∧ r.1.status = "accepted"
        ∧ MainApp.rlookup r.2.1 task_id = some MainApp.acceptedEntry)
    ∧ (MainApp.jobTrace outcome).head? = some MainApp.acceptedEntry
    ∧ MainApp.acceptedEntry.status = .accepted
    ∧ MainApp.acceptedEntry.progress = some 0
    ∧ List.Chain' (fun a b => MainApp.stepOK a.status b.status)
        (MainApp.jobTrace outcome)
    ∧ (∀ x ∈ (MainApp.jobTrace outcome).dropLast,
        x.status ≠ .completed ∧ x.status ≠ .failed)
    ∧ (∀ x, (MainApp.jobTrace outcome).getLast? = some x →
        x.status = .completed ∨ x.status = .failed)
    ∧ (∀ x ∈ MainApp.jobTrace outcome,
        (x.status = .completed → x.progress = some 1 ∧ x.result ≠ none)
        ∧ (x.status = .failed → x.error ≠ none))
    ∧ (MainApp.rlookup tasks task_id = some e → e.status = .completed →
        (MainApp.get_async_task_status task_id tasks).2 = tasks
        ∧ (MainApp.get_async_task_status task_id
            ((MainApp.get_async_task_status task_id tasks).2)).1
          = (MainApp.get_async_task_status task_id tasks).1
        ∧ (MainApp.get_async_task_status task_id tasks).1
          = .ok { task_id := task_id, status := "completed",
                  result := e.result, progress := some (e.progress.getD 0) }) := by
  refine ⟨?_, ?_, rfl, rfl, ?_, ?_, ?_, ?_, ?_⟩
  · intro u hu
    unfold MainApp.start_async_recommendations
    rw [hu]
    exact ⟨_, rfl, rfl, by simp [MainApp.rlookup, MainApp.rinsert]⟩
  · cases outcome <;> rfl
  · cases outcome <;>
      simp [MainApp.jobTrace, MainApp.generate_recommendations_async,
        MainApp.stepOK, MainApp.acceptedEntry, MainApp.processingEntry,
        MainApp.completedEntry, MainApp.failedEntry]
  · intro x hx
    cases outcome <;>
    · simp only [MainApp.jobTrace, MainApp.generate_recommendations_async,
        List.cons_append, List.nil_append, List.dropLast_cons₂,
        List.dropLast_single, List.mem_cons, List.not_mem_nil,
        or_false] at hx
      rcases hx with rfl | rfl | rfl <;> exact ⟨by decide, by decide⟩
  · intro x hx
    cases outcome <;>
    · simp only [MainApp.jobTrace, MainApp.generate_recommendations_async,
        List.cons_append, List.nil_append, List.getLast?_cons_cons,
        List.getLast?_singleton, Option.some.injEq] at hx
      subst hx
      first
        | exact Or.inl rfl
        | exact Or.inr rfl
  · intro x hx
    cases outcome <;>
    · simp only [MainApp.jobTrace, MainApp.generate_recommendations_async,
        List.cons_append, List.nil_append, List.mem_cons,
        List.not_mem_nil, or_false] at hx
      rcases hx with rfl | rfl | rfl | rfl <;>
        exact ⟨fun h => by simp_all [MainApp.acceptedEntry,
            MainApp.processingEntry, MainApp.completedEntry,
            MainApp.failedEntry],
          fun h => by simp_all [MainApp.acceptedEntry,
            MainApp.processingEntry, MainApp.completedEntry,
            MainApp.failedEntry]⟩
  · intro hlook hstatus
    simp only [MainApp.get_async_task_status, hlook]
    exact ⟨trivial, trivial, by simp [hstatus, MainApp.statusText]⟩

/-- C7. Upstream error typing: the user lookup by primary identifier fails
with a typed error — 404 Not-Found on any non-2xx response (the source tests
for exactly 200, so this covers every non-2xx status) and 503 Unavailable on
a transport failure or timeout — while the preferences lookup and the
catalog candidates lookup never propagate an error: on any transport failure
or non-2xx response they return the empty preferences document and the
empty candidate sequence respectively. -/
theorem upstream_error_typing (uid : String) (c : Nat) (u : MainApp.UserData)
    (m : String) (p : MainApp.Prefs) (pl : List MainApp.MainPOI) :
    (MainApp.get_user uid (.http 200 u) = .ok u)
    ∧ (¬ (200 ≤ c ∧ c < 300) →
        MainApp.get_user uid (.http c u)
          = .error ⟨404, "User " ++ uid ++ " not found"⟩)
    ∧ (MainApp.get_user uid (.exn m)
        = .error ⟨503, "User service unavailable: " ++ m⟩)
    ∧ (¬ (200 ≤ c ∧ c < 300) →
        MainApp.get_user_preferences (MainApp.Resp.http c p) = [])
    ∧ (MainApp.get_user_preferences (.exn m) = [])
    ∧ (¬ (200 ≤ c ∧ c < 300) → MainApp.get_pois (MainApp.Resp.http c pl) = [])
    ∧ (MainApp.get_pois (.exn m) = []) := by
  refine ⟨rfl, fun h => ?_, rfl, fun h => ?_, rfl, fun h => ?_, rfl⟩
  · unfold MainApp.get_user
    split <;> simp_all
  · unfold MainApp.get_user_preferences
    split <;> simp_all
  · unfold MainApp.get_pois
    split <;> simp_all

/-- C8. Tag normalization: a tag belongs to a candidate's normalized tag set
exactly when it is non-empty and is the whitespace-trimmed form of one of
the comma-separated fragments of one of the three raw tag strings (vibes,
activities, food); and, concretely, normalizing `"food, , coffee,cozy"`
yields exactly `{"food", "coffee", "cozy"}`. -/
theorem tag_normalization (poi : RecService.RawPOI) (t : String) :
    (t ∈ RecService.extract_poi_tags poi ↔
      t ≠ "" ∧ ∃ raw ∈ [poi.vibes, poi.activities, poi.food],
        ∃ frag ∈ pySplitComma raw, pyStrip frag = t)
    ∧ (RecService.cleanTags "food, , coffee,cozy").toFinset
      = ({"food", "coffee", "cozy"} : Finset String) := by
  constructor
  · simp only [RecService.extract_poi_tags, RecService.cleanTags,
      List.mem_toFinset, List.mem_append, List.mem_filter, List.mem_map,
      List.mem_cons, List.not_mem_nil, or_false, decide_eq_true_eq]
    constructor
    · rintro ((⟨⟨f, hf, rfl⟩, hne⟩ | ⟨⟨f, hf, rfl⟩, hne⟩) | ⟨⟨f, hf, rfl⟩, hne⟩)
      · exact ⟨hne, poi.vibes, Or.inl rfl, f, hf, rfl⟩
      · exact ⟨hne, poi.activities, Or.inr (Or.inl rfl), f, hf, rfl⟩
      · exact ⟨hne, poi.food, Or.inr (Or.inr rfl), f, hf, rfl⟩
    · rintro ⟨hne, raw, (rfl | rfl | rfl), f, hf, rfl⟩
      · exact Or.inl (Or.inl ⟨⟨f, hf, rfl⟩, hne⟩)
      · exact Or.inl (Or.inr ⟨⟨f, hf, rfl⟩, hne⟩)
      · exact Or.inr ⟨⟨f, hf, rfl⟩, hne⟩
  · decide

/-- C9. Polling an unknown job identifier is a Not-Found condition, not a
crash: whenever the task id has no registry entry the status poll returns
the 404 error, and every poll — found or not — leaves the registry
unchanged. -/
theorem unknown_task_not_found (task_id : String)
    (tasks : MainApp.Registry) :
    (MainApp.rlookup tasks task_id = none →
      (MainApp.get_async_task_status task_id tasks).1
        = .error ⟨404, "Task not found"⟩)
    ∧ (MainApp.get_async_task_status task_id tasks).2 = tasks := by
  constructor
  · intro h
    simp [MainApp.get_async_task_status, h]
  · unfold MainApp.get_async_task_status
    split <;> rfl

/-- C10. A failed job reports progress 0.0: along a failing job's write
trace the progress values are 0.0, 0.1, 0.5 and then — in the `failed`
entry, which stores no progress key — none, so the progress a poller
observes is not monotonic across the failure; the status poll substitutes
the default 0.0 for the missing key and answers `failed` with progress 0.0
and no result. -/
theorem failed_job_progress_reset (f : MainApp.AggFailure)
    (tasks : MainApp.Registry) (task_id : String) :
    ((MainApp.jobTrace (.error f)).map (fun x => x.progress)
      = [some 0, some (1/10), some (1/2), none])
    ∧ (MainApp.failedEntry f).progress = none
    ∧ (MainApp.rlookup tasks task_id = some (MainApp.failedEntry f) →
      (MainApp.get_async_task_status task_id tasks).1
        = .ok { task_id := task_id, status := "failed", result := none,
                progress := some 0 }) := by
  refine ⟨rfl, rfl, fun h => ?_⟩
  simp [MainApp.get_async_task_status, h, MainApp.failedEntry,
    MainApp.statusText]
